import Mathlib

/-!
Verification of the `errors` package (`src/errors.go`): an error-wrapping
library with messages, integer codes and captured stack traces.

Go values of interface type `error` are embedded as `Option GoError`
(`none` is Go's `nil`); the four concrete shapes an error can take in this
development are the three node types of the package (`MsgCodeErr`,
`StackError`, `CauseMsgCodeError`) plus an opaque foreign error that
implements only `Error()`.  Go's dynamic interface probes
(`err.(interface{ Code() int })`, `causer`, `Unwrap`) become
`Option`-valued dispatch functions that return `none` exactly when the
dynamic type does not implement the method.  Mutation of the `code` field
by `SetCode` is embedded by explicit state passing: the function returns
the updated node; since `SetCode` only ever rewrites the `code` field of
the node it dispatches to, the returned tree shows exactly which node was
mutated and that every other node (in particular the wrapped cause) is
unchanged.

Stack capture (`callers()`), the `stack` type with its `Format` method and
the constant `ErrCodeNotDefined` live in a file of the repository that is
not under `src/`; they are modelled from the spec where needed, and each
such definition is marked `Modelled from the spec:` in its doc comment.
-/

namespace ErrorsPkg

/-- Modelled from the spec: a `Frame` is one call-site entry of a captured
stack trace, resolvable to a function name, file and line (spec section 3).
The raw program counter is irrelevant to the claims, so a frame is its
resolved form. -/
structure Frame where
  function : String
  file : String
  line : Nat
deriving DecidableEq, Repr

/-- Modelled from the spec: a `StackTrace` is an ordered finite sequence of
frames, innermost frame first (spec section 3).  `callers()` is not under
`src/`, so every constructor that captures a stack takes the captured
trace as an explicit argument instead. -/
abbrev Stack := List Frame

/-- Modelled from the spec: the constant `ErrCodeNotDefined` is declared
outside `src/errors.go`.  The spec calls the sentinel "0/sentinel" and
"sentinel code 0/undefined" (sections 4.5 and 7), so it is the integer 0. -/
def ErrCodeNotDefined : Int := 0

/-- Values of Go's `error` interface reachable through this package:
`msgCode` is `*MsgCodeErr` (code, message, stack), `stackError` is
`*StackError` (embedded cause and a stack), `causeMsgCode` is
`*CauseMsgCodeError` (cause, code, message), and `foreign` is any error
from outside the package, implementing only `Error() string`. -/
inductive GoError where
  | msgCode (code : Int) (msg : String) (stack : Stack)
  | stackError (err : GoError) (stack : Stack)
  | causeMsgCode (cause : GoError) (code : Int) (msg : String)
  | foreign (msg : String)
deriving DecidableEq, Repr

/-- Dynamic dispatch of `Error() string`.  `MsgCodeErr.Error` returns the
stored message (errors.go:128); `StackError` embeds its cause as the
anonymous `error` field, so its `Error()` is the cause's (errors.go:168);
`CauseMsgCodeError.Error` is `w.msg + ": " + w.cause.Error()`
(errors.go:303); a foreign error returns its own message. -/
def Error : GoError → String
  | .msgCode _ m _ => m
  | .stackError e _ => Error e
  | .causeMsgCode cause _ m => m ++ ": " ++ Error cause
  | .foreign m => m

/-- Dynamic probe-and-call of `Code() int`: `some c` when the dynamic type
implements `interface{ Code() int }` and calling it returns `c`, `none`
otherwise.  `MsgCodeErr.Code` and `CauseMsgCodeError.Code` return the
stored field (errors.go:148, 327); `StackError.Code` probes its cause and
defers, yielding 0 when the cause exposes no code (errors.go:197-202);
a foreign error has no such method. -/
def Code? : GoError → Option Int
  | .msgCode c _ _ => some c
  | .causeMsgCode _ c _ => some c
  | .stackError inner _ => some ((Code? inner).getD 0)
  | .foreign _ => none

/-- Dynamic probe-and-call of `SetCode(int) error`, state-passing style:
`some e2` when the dynamic type implements it and the call leaves the node
as `e2` (the Go call mutates in place and returns the receiver), `none`
otherwise.  `MsgCodeErr.SetCode` and `CauseMsgCodeError.SetCode` overwrite
their own `code` field and return themselves (errors.go:151-154, 330-333);
`StackError.SetCode` delegates to its cause when the cause implements the
method, otherwise does nothing, and returns the `StackError` itself either
way (errors.go:205-210); a foreign error has no such method. -/
def SetCode? : GoError → Int → Option GoError
  | .msgCode _ m st, c => some (.msgCode c m st)
  | .causeMsgCode cause _ m, c => some (.causeMsgCode cause c m)
  | .stackError inner st, c => some (.stackError ((SetCode? inner c).getD inner) st)
  | .foreign _, _ => none

/-- Dynamic probe-and-call of the unexported `causer` interface
(`Cause() error`): `StackError.Cause` returns the embedded error
(errors.go:174) and `CauseMsgCodeError.Cause` returns the stored cause
(errors.go:306); `MsgCodeErr` and foreign errors have no `Cause` method. -/
def Cause? : GoError → Option GoError
  | .stackError inner _ => some inner
  | .causeMsgCode cause _ _ => some cause
  | _ => none

/-- Dynamic probe-and-call of Go 1.13 `Unwrap() error`:
`StackError.Unwrap` returns the embedded error (errors.go:177),
`CauseMsgCodeError.Unwrap` returns the stored cause (errors.go:309);
the other shapes have no `Unwrap` method. -/
def Unwrap? : GoError → Option GoError
  | .stackError inner _ => some inner
  | .causeMsgCode cause _ _ => some cause
  | _ => none

/-- The loop body of the package-level `Cause` (errors.go:346-359) on a
non-nil error: while the current value implements `causer`, descend to its
cause; return the first value that does not.  The Go loop also re-checks
`err != nil` each round, but the package constructors never store a nil
cause, so on package-built values the check never fires mid-chain. -/
def causeLoop : GoError → GoError
  | .stackError inner _ => causeLoop inner
  | .causeMsgCode cause _ _ => causeLoop cause
  | e => e

/-- Package-level `Cause` (errors.go:346-359): nil maps to nil, otherwise
run the causer-descent loop. -/
def Cause : Option GoError → Option GoError
  | none => none
  | some e => some (causeLoop e)

/-- `New` (errors.go:102-108): a `MsgCodeErr` with the message, the code
set to `ErrCodeNotDefined`, and a stack captured at the call site (the
captured trace is the explicit argument `st`). -/
def New (message : String) (st : Stack) : GoError :=
  .msgCode ErrCodeNotDefined message st

/-- `Errorf` (errors.go:113-118): a `MsgCodeErr` whose message is the
result of the `fmt.Sprintf` call (passed here already formatted, since
string formatting is eager and opaque to the claims) and a captured stack.
The struct literal omits the `code` field, so Go zero-initializes it to
the literal integer 0. -/
def Errorf (formatted : String) (st : Stack) : GoError :=
  .msgCode 0 formatted st

/-- `WithStack` (errors.go:158-166): nil in, nil out; otherwise a
`StackError` holding the error and a freshly captured stack. -/
def WithStack (err : Option GoError) (st : Stack) : Option GoError :=
  match err with
  | none => none
  | some e => some (.stackError e st)

/-- `Wrap` (errors.go:215-233): nil in, nil out; otherwise read the
cause's code if it exposes one (else `ErrCodeNotDefined`), build a
`CauseMsgCodeError` with that code and the message, and wrap it in a
`StackError` with a freshly captured stack. -/
def Wrap (err : Option GoError) (message : String) (st : Stack) : Option GoError :=
  match err with
  | none => none
  | some e =>
    some (.stackError (.causeMsgCode e ((Code? e).getD ErrCodeNotDefined) message) st)

/-- `Wrapf` (errors.go:238-256): same as `Wrap` with the message produced
by `fmt.Sprintf` (passed already formatted). -/
def Wrapf (err : Option GoError) (formatted : String) (st : Stack) : Option GoError :=
  match err with
  | none => none
  | some e =>
    some (.stackError (.causeMsgCode e ((Code? e).getD ErrCodeNotDefined) formatted) st)

/-- `WithMessage` (errors.go:260-275): nil in, nil out; otherwise a
`CauseMsgCodeError` with the cause's code if exposed (else
`ErrCodeNotDefined`) and the message; no stack capture. -/
def WithMessage (err : Option GoError) (message : String) : Option GoError :=
  match err with
  | none => none
  | some e => some (.causeMsgCode e ((Code? e).getD ErrCodeNotDefined) message)

/-- `WithMessagef` (errors.go:279-294): same as `WithMessage` with the
message produced by `fmt.Sprintf` (passed already formatted). -/
def WithMessagef (err : Option GoError) (formatted : String) : Option GoError :=
  match err with
  | none => none
  | some e => some (.causeMsgCode e ((Code? e).getD ErrCodeNotDefined) formatted)

/-- Modelled from the spec: rendering of one captured stack trace under
`%+v`.  The `stack` type's `Format` method is not under `src/`; per spec
section 6 each frame renders as the function name on one line then a
tab-indented `path:line`, frames emitted in capture order (innermost
first), each preceded by a newline separating it from what came before. -/
def renderStack (st : Stack) : String :=
  st.foldl (fun acc f => acc ++ "\n" ++ f.function ++ "\n\t" ++ f.file ++ ":" ++ toString f.line) ""

/-- Output of `fmt.Fprintf("%+v", e)`, from the `Format` methods.
`MsgCodeErr.Format` writes the message then its stack (errors.go:131-145);
`StackError.Format` writes `%+v` of the cause then its own stack
(errors.go:180-194); `CauseMsgCodeError.Format` writes `%+v` of the cause,
a newline, then its own message (errors.go:312-324); a foreign error
without a `Formatter` prints its `Error()` text. -/
def formatExtended : GoError → String
  | .msgCode _ m st => m ++ renderStack st
  | .stackError inner st => formatExtended inner ++ renderStack st
  | .causeMsgCode cause _ m => formatExtended cause ++ "\n" ++ m
  | .foreign m => m

/-- Modelled from the spec (sections 4.3-4.5, the rendering the code
implements): extended form of a base node is its message followed by its
stack; a cause-chain node recursively renders its cause in extended form,
then emits its own message; a stack-annotated node recursively renders its
cause in extended form, then appends its own captured stack trace.
Messages therefore appear inner-to-outer. -/
def renderSpecExtended : GoError → String
  | .msgCode _ m st => m ++ renderStack st
  | .stackError inner st => renderSpecExtended inner ++ renderStack st
  | .causeMsgCode cause _ m => renderSpecExtended cause ++ "\n" ++ m
  | .foreign m => m

/-- Extended rendering as claim C9 words it: the same chain content and
separators, but with the messages appearing in outer-to-inner order — a
node with a cause emits its own message first, then its cause's extended
form. -/
def renderClaimOuterFirst : GoError → String
  | .msgCode _ m st => m ++ renderStack st
  | .stackError inner st => renderClaimOuterFirst inner ++ renderStack st
  | .causeMsgCode cause _ m => m ++ "\n" ++ renderClaimOuterFirst cause
  | .foreign m => m

/-- C1: every annotation operation (Wrap, Wrapf, WithMessage, WithMessagef,
WithStack) returns nil on a nil cause and a non-nil result on any non-nil
cause, for every message. -/
theorem absence_propagation :
    (∀ m st, Wrap none m st = none) ∧
    (∀ m st, Wrapf none m st = none) ∧
    (∀ m, WithMessage none m = none) ∧
    (∀ m, WithMessagef none m = none) ∧
    (∀ st, WithStack none st = none) ∧
    (∀ e m st, (Wrap (some e) m st).isSome = true) ∧
    (∀ e m st, (Wrapf (some e) m st).isSome = true) ∧
    (∀ e m, (WithMessage (some e) m).isSome = true) ∧
    (∀ e m, (WithMessagef (some e) m).isSome = true) ∧
    (∀ e st, (WithStack (some e) st).isSome = true) :=
  ⟨fun _ _ => rfl, fun _ _ => rfl, fun _ => rfl, fun _ => rfl, fun _ => rfl,
   fun _ _ _ => rfl, fun _ _ _ => rfl, fun _ _ => rfl, fun _ _ => rfl, fun _ _ => rfl⟩

/-- C2: for every non-nil error e and message m, `Wrap e m` renders in
short form as `m ++ ": " ++ Error e`; a node with a cause and its own
message renders as its message, ": ", then the cause's short form,
recursively; and a stack-only node's `Error` delegates verbatim to its
cause's `Error`. -/
theorem message_chain_law :
    (∀ e m st, (Wrap (some e) m st).map Error = some (m ++ ": " ++ Error e)) ∧
    (∀ cause c m, Error (GoError.causeMsgCode cause c m) = m ++ ": " ++ Error cause) ∧
    (∀ inner st, Error (GoError.stackError inner st) = Error inner) :=
  ⟨fun _ _ _ => rfl, fun _ _ _ => rfl, fun _ _ => rfl⟩

/-- C3: `Cause nil = nil`; `Cause` returns any non-nil error that exposes
no `Cause()` accessor unchanged; while the current value exposes a
`Cause()` accessor the traversal descends to it; and wrapping twice never
changes the root cause. -/
theorem root_cause_traversal :
    Cause none = none ∧
    (∀ e, Cause? e = none → Cause (some e) = some e) ∧
    (∀ e c, Cause? e = some c → causeLoop e = causeLoop c) ∧
    (∀ e m1 m2 st1 st2, Cause (Wrap (Wrap (some e) m1 st1) m2 st2) = Cause (some e)) := by
  refine ⟨rfl, ?_, ?_, ?_⟩
  · intro e h
    cases e with
    | msgCode c m st => rfl
    | foreign m => rfl
    | stackError inner st => exact absurd h (by simp [Cause?])
    | causeMsgCode cause c m => exact absurd h (by simp [Cause?])
  · intro e c h
    cases e with
    | msgCode c' m st => exact absurd h (by simp [Cause?])
    | foreign m => exact absurd h (by simp [Cause?])
    | stackError inner st =>
        simp only [Cause?, Option.some.injEq] at h
        rw [causeLoop, h]
    | causeMsgCode cause c' m =>
        simp only [Cause?, Option.some.injEq] at h
        rw [causeLoop, h]
  · intro e m1 m2 st1 st2
    simp [Wrap, Cause, causeLoop]

/-- C3 witness: the traversal laws instantiated at a foreign error and at
a stack-annotated node wrapping it. -/
theorem root_cause_traversal_witness :
    Cause (some (GoError.foreign "x")) = some (GoError.foreign "x") ∧
    causeLoop (GoError.stackError (GoError.foreign "x") []) = causeLoop (GoError.foreign "x") :=
  ⟨root_cause_traversal.2.1 (GoError.foreign "x") rfl,
   root_cause_traversal.2.2.1 (GoError.stackError (GoError.foreign "x") []) (GoError.foreign "x") rfl⟩

/-- C4: if e exposes code K, then `Wrap e m` exposes code K; the wrapper is
a StackError around a CauseMsgCodeError whose stored cause is e itself, and
calling SetCode J on the wrapper rewrites only the CauseMsgCodeError's code
field — the resulting tree still stores e unchanged, so e's code is still
K — while the wrapper then exposes code J. -/
theorem code_inheritance_law (e : GoError) (m : String) (st : Stack) (K J : Int)
    (h : Code? e = some K) :
    (Wrap (some e) m st).bind Code? = some K ∧
    Wrap (some e) m st = some (GoError.stackError (GoError.causeMsgCode e K m) st) ∧
    SetCode? (GoError.stackError (GoError.causeMsgCode e K m) st) J
      = some (GoError.stackError (GoError.causeMsgCode e J m) st) ∧
    Code? (GoError.stackError (GoError.causeMsgCode e J m) st) = some J := by
  refine ⟨?_, ?_, ?_, ?_⟩ <;> simp [Wrap, SetCode?, Code?, h]

/-- C4 witness: the inheritance law at a base error with code 5, set to 7
through the wrapper. -/
theorem code_inheritance_law_witness :
    (Wrap (some (GoError.msgCode 5 "boom" [])) "m" []).bind Code? = some 5 ∧
    SetCode? (GoError.stackError (GoError.causeMsgCode (GoError.msgCode 5 "boom" []) 5 "m") []) 7
      = some (GoError.stackError (GoError.causeMsgCode (GoError.msgCode 5 "boom" []) 7 "m") []) :=
  ⟨(code_inheritance_law (GoError.msgCode 5 "boom" []) "m" [] 5 7 rfl).1,
   (code_inheritance_law (GoError.msgCode 5 "boom" []) "m" [] 5 7 rfl).2.2.1⟩

/-- C5: both base constructors leave the code at the sentinel: `New m`
exposes `ErrCodeNotDefined`, and `Errorf` — whose struct literal omits the
code field, leaving Go's zero value 0 — also exposes `ErrCodeNotDefined`,
since the spec's sentinel is 0. -/
theorem sentinel_default_at_construction :
    ∀ m f st1 st2, Code? (New m st1) = some ErrCodeNotDefined ∧
      Code? (Errorf f st2) = some ErrCodeNotDefined :=
  fun _ _ _ _ => ⟨rfl, rfl⟩

/-- C6: `New m` renders as m verbatim; `SetCode c` on it succeeds (never
fails), returning the very node with only its code field now c, so
`(New m).SetCode(c).Code() = c`. -/
theorem base_accessors :
    ∀ m c st, Error (New m st) = m ∧
      SetCode? (New m st) c = some (GoError.msgCode c m st) ∧
      (SetCode? (New m st) c).bind Code? = some c :=
  fun _ _ _ => ⟨rfl, rfl, rfl⟩

/-- C7: a StackError stores no code field; its Code() defers to its cause
when the cause exposes one and yields 0 otherwise; its SetCode delegates to
the cause's SetCode when the cause exposes one (mutating the inner node,
the StackError keeping the same cause reference) and is a no-op otherwise,
returning the StackError itself in both cases. -/
theorem stack_code_delegation (inner : GoError) (st : Stack) (c k : Int) :
    (Code? inner = none → Code? (GoError.stackError inner st) = some 0) ∧
    (Code? inner = some k → Code? (GoError.stackError inner st) = some k) ∧
    (SetCode? inner c = none →
      SetCode? (GoError.stackError inner st) c = some (GoError.stackError inner st)) ∧
    (∀ i, SetCode? inner c = some i →
      SetCode? (GoError.stackError inner st) c = some (GoError.stackError i st)) := by
  refine ⟨fun h => ?_, fun h => ?_, fun h => ?_, fun i h => ?_⟩ <;> simp [Code?, SetCode?, h]

/-- C7 witness: delegation at a foreign cause (no code capability) and at
a base cause with code 5. -/
theorem stack_code_delegation_witness :
    Code? (GoError.stackError (GoError.foreign "f") []) = some 0 ∧
    Code? (GoError.stackError (GoError.msgCode 5 "x" []) []) = some 5 ∧
    SetCode? (GoError.stackError (GoError.foreign "f") []) 9
      = some (GoError.stackError (GoError.foreign "f") []) ∧
    SetCode? (GoError.stackError (GoError.msgCode 5 "x" []) []) 9
      = some (GoError.stackError (GoError.msgCode 9 "x" []) []) :=
  ⟨(stack_code_delegation (GoError.foreign "f") [] 9 0).1 rfl,
   (stack_code_delegation (GoError.msgCode 5 "x" []) [] 9 5).2.1 rfl,
   (stack_code_delegation (GoError.foreign "f") [] 9 0).2.2.1 rfl,
   (stack_code_delegation (GoError.msgCode 5 "x" []) [] 9 5).2.2.2
     (GoError.msgCode 9 "x" []) rfl⟩

/-- C8: for every non-nil e, `Wrap e m` equals `WithStack (WithMessage e m)`:
a CauseMsgCodeError carrying m and e's code (or the sentinel) wrapped in a
StackError, so its Cause() is the message node and its Cause().Cause() is
e — one new message layer and one new stack layer per call. -/
theorem wrap_composite :
    ∀ e m st,
      Wrap (some e) m st = WithStack (WithMessage (some e) m) st ∧
      (Wrap (some e) m st).bind Cause?
        = some (GoError.causeMsgCode e ((Code? e).getD ErrCodeNotDefined) m) ∧
      ((Wrap (some e) m st).bind Cause?).bind Cause? = some e :=
  fun _ _ _ => ⟨rfl, rfl, rfl⟩

/-- C9 counterexample: on a message-wrapped base error with no frames, the
code's %+v output is "inner newline outer" — the inner message first —
whereas the claim's outer-to-inner order would put "outer" first; the two
renderings differ. -/
theorem extended_rendering_order_counterexample :
    formatExtended (GoError.causeMsgCode (GoError.msgCode 0 "inner" []) 0 "outer")
      = "inner\nouter" ∧
    renderClaimOuterFirst (GoError.causeMsgCode (GoError.msgCode 0 "inner" []) 0 "outer")
      = "outer\ninner" ∧
    formatExtended (GoError.causeMsgCode (GoError.msgCode 0 "inner" []) 0 "outer")
      ≠ renderClaimOuterFirst (GoError.causeMsgCode (GoError.msgCode 0 "inner" []) 0 "outer") := by
  refine ⟨by decide, by decide, by decide⟩

/-- C9 (amended): %+v reproduces the entire chain of messages and every
captured stack snapshot, with the messages appearing in inner-to-outer
order — each node renders its cause's extended form first, then its own
message — and each node's stack appended after its cause's rendering,
frames in capture order: the code's Format methods coincide with the
spec's recursive extended-form rendering on every chain. -/
theorem extended_rendering_inner_to_outer :
    ∀ e, formatExtended e = renderSpecExtended e := by
  intro e
  induction e with
  | msgCode c m st => rfl
  | stackError inner st ih => simp [formatExtended, renderSpecExtended, ih]
  | causeMsgCode cause c m ih => simp [formatExtended, renderSpecExtended, ih]
  | foreign m => rfl

/-- C10: every wrapper node of the package (StackError, CauseMsgCodeError)
exposes both Cause() and Go 1.13 Unwrap(), and on every value the two
probes agree exactly, so standard-library unwrapping follows the same
chain as the package's cause traversal. -/
theorem unwrap_cause_agreement :
    (∀ e, Unwrap? e = Cause? e) ∧
    (∀ inner st, Unwrap? (GoError.stackError inner st) = some inner) ∧
    (∀ cause c m, Unwrap? (GoError.causeMsgCode cause c m) = some cause) := by
  refine ⟨?_, fun _ _ => rfl, fun _ _ _ => rfl⟩
  intro e
  cases e <;> rfl

end ErrorsPkg
